import Mathlib

/-!
Verification of the Mastodon safe-posting bot decision engine

Shallow embedding of `mastodon_bot_safe.py`: the persistent scheduling
state, the clock/window classifier, the anti-repetition pickers, the
action selector with per-type caps, the retry/backoff wrapper and the
`do_one_action` cycle orchestrator are translated into executable Lean
definitions.  External collaborators (the Mastodon HTTP client, the
filesystem image listing, the random number generator and `time.sleep`)
are modelled by an explicit `Oracle` record that supplies the outcome of
every remote call, every shuffle and every random draw made during one
cycle, so that `do_one_action` becomes a pure function of
(state, local time, oracle).
-/

namespace MastodonBot

/-! ## Configuration constants (`USER CONFIG` section of the source) -/

def SITE_URL : String := "https://louphi1987.github.io/Site_de_Louphi/"
def OPENSEA_URL : String := "https://opensea.io/collection/loufis-art"

def NO_POST_START_HOUR : Nat := 23  -- inclusive
def NO_POST_END_HOUR : Nat := 7     -- exclusive

def MAX_POSTS_PER_DAY : Nat := 4
def MAX_ENGAGEMENTS_PER_DAY : Nat := 10
def MAX_POSTS_PER_HOUR : Nat := 2
def MAX_ENGAGEMENTS_PER_HOUR : Nat := 3

def MAX_IMG_GMGN_PER_DAY : Nat := 2
def MAX_SHORT_LINK_PER_DAY : Nat := 2
def MAX_GMGN_LONG_PER_DAY : Nat := 1

/-! ## Text libraries -/

def GM_SHORT : List String := ["GM ☀️", "GM ✨", "GM 🌞", "GM 🌿", "GM 👋"]
def GN_SHORT_BASE : List String := ["GN", "Gn", "gn", "Good night", "Night"]
def RANDOM_GN_EMOJIS : List String := ["🌙", "✨", "⭐", "💤", "🌌", "🫶", "💫", "😴", "🌠"]

def GM_LONG : List String :=
  ["GM 🌱 Wishing you a day full of creativity and light.",
   "GM ✨ New day, new brushstrokes.",
   "GM 🌊 Let's dive into imagination today."]

def GN_LONG : List String :=
  ["Good night 🌙💫 May your dreams be as colorful as art.",
   "GN 🌌 See you in tomorrow’s stories.",
   "Resting the canvas for tomorrow’s colors. GN ✨"]

def LINK_POOLS : List String := [SITE_URL, OPENSEA_URL]

def COMMENT_SHORT : List String :=
  ["Thanks for the mention!", "Appreciate it 🙏", "Thanks for looping me in ✨", "Thanks!"]
def COMMENT_EMOJIS : List String :=
  ["🔥", "👍", "👏", "😍", "✨", "🫶", "🎉", "💯", "🤝", "⚡", "🌟"]

/-! ## Small helpers

`takeLast l n` models the Python slice `l[-n:]` (the last `n` elements,
or all of `l` when it is shorter).  `defChoice l i` models
`random.choice(l)`: the oracle supplies the index `i`, reduced modulo the
pool length; on a nonempty pool the result is always a pool member. -/

def takeLast {α : Type} (l : List α) (n : Nat) : List α :=
  l.drop (l.length - n)

def defChoice (l : List String) (i : Nat) : String :=
  (l.get? (i % l.length)).getD ""

/-! ## Data model (`STATE PERSISTENCE` section) -/

structure DailyCounters where
  date : String
  posts : Nat
  engagements : Nat
  deriving DecidableEq, Repr

structure HourlyCounters where
  key : String
  posts : Nat
  engagements : Nat
  deriving DecidableEq, Repr

/-- The `pertype` dictionary `{"post_img_gmgn_short": _, "post_gmgn_long": _,
"post_short_link": _, "reblog": _}`. -/
structure PerType where
  post_img_gmgn_short : Nat
  post_gmgn_long : Nat
  post_short_link : Nat
  reblog : Nat
  deriving DecidableEq, Repr

/-- One record of the `history` log: `{"text": _, "ts": _, "media": _?}`.
Timestamps are modelled as integer seconds (UTC); the source stores ISO
strings that it parses back with `datetime.fromisoformat` and compares
chronologically, which integer comparison models. -/
structure HistoryRec where
  text : String
  ts : Int
  media : Option String
  deriving DecidableEq, Repr

/-- The persisted state dictionary. -/
structure BotState where
  history : List HistoryRec
  daily : DailyCounters
  hourly : HourlyCounters
  processed_notifications : List String
  recent_reblogs : List String
  pertype : PerType
  deriving DecidableEq, Repr

def _pertype_zero : PerType :=
  { post_img_gmgn_short := 0, post_gmgn_long := 0, post_short_link := 0, reblog := 0 }

/-- The fresh state returned by `load_state` when no state file exists
(or the stored one is corrupt). -/
def initial_state : BotState :=
  { history := []
    daily := { date := "", posts := 0, engagements := 0 }
    hourly := { key := "", posts := 0, engagements := 0 }
    processed_notifications := []
    recent_reblogs := []
    pertype := _pertype_zero }

/-- The local wall-clock instant a cycle observes: `dateKey` is
`now_local.date().isoformat()`, `hour` is `now_local.hour`, and `ts` is
the UTC instant (integer seconds) used for history timestamps/cutoffs. -/
structure NowInfo where
  dateKey : String
  hour : Nat
  ts : Int
  deriving DecidableEq, Repr

/-! ## State store operations -/

def reset_daily_if_needed (state : BotState) (now_local : NowInfo) : BotState :=
  if state.daily.date ≠ now_local.dateKey then
    { state with
        daily := { date := now_local.dateKey, posts := 0, engagements := 0 }
        recent_reblogs := takeLast state.recent_reblogs 200
        pertype := _pertype_zero }
  else state

/-- The hour key `f"{date}_{hour:02d}"`.  Zero padding of the hour is
omitted: only equality of keys matters and the mapping stays injective
for hours 0–23 against ISO date keys. -/
def hour_key (now_local : NowInfo) : String :=
  now_local.dateKey ++ "_" ++ toString now_local.hour

def reset_hourly_if_needed (state : BotState) (now_local : NowInfo) : BotState :=
  if state.hourly.key ≠ hour_key now_local then
    { state with hourly := { key := hour_key now_local, posts := 0, engagements := 0 } }
  else state

/-- The function `remember_post`: append a history record stamped with the current UTC
instant and trim the log to its last 400 entries. -/
def remember_post (state : BotState) (text : String) (tnow : Int) (media : Option String) :
    BotState :=
  { state with history := takeLast (state.history ++ [⟨text, tnow, media⟩]) 400 }

/-- Python's `str.strip()`: drop leading and trailing whitespace.
(Defined over the character list so that it evaluates by kernel
reduction; `String.trim` computes the same result but is defined by
well-founded recursion over byte positions and does not reduce.) -/
def strip (s : String) : String :=
  ⟨((s.data.dropWhile Char.isWhitespace).reverse.dropWhile Char.isWhitespace).reverse⟩

/-- The predicate `recently_used_text`: the source walks `reversed(history)` and returns
`True` on the first entry inside the lookback window whose stripped text
matches; the early-return loop over well-formed entries is exactly an
existence check. -/
def recently_used_text (state : BotState) (tnow : Int) (text : String) (days : Int) : Bool :=
  let cutoff := tnow - days * 86400
  state.history.any (fun item => decide (cutoff ≤ item.ts ∧ strip item.text = strip text))

/-! ## Retry/backoff wrapper (`with_backoff`)

A wrapped call is modelled by the finite trace of outcomes the remote
service would produce on successive attempts: `CallOutcome.ok v` is a
successful return, `CallOutcome.exc rl` an exception whose
`_needs_backoff` classification (HTTP 429 / rate-limit text in the
message) is `rl`.  `with_backoff_go tries outcomes` returns
`some (result, sleeps)` once the wrapper's loop finishes within the
trace — `result` is either the returned value or the propagated
exception, `sleeps` the list of `time.sleep` durations in seconds (the
source uses floats `5.0 * 2**(tries-1)` capped at `60.0` and
`2.0 * tries`, whose values are the integers modelled here) — or `none`
when the trace is exhausted with the loop still running. -/

inductive CallOutcome (α : Type) where
  | ok : α → CallOutcome α
  | exc : Bool → CallOutcome α
  deriving DecidableEq, Repr

def with_backoff_go {α : Type} (tries : Nat) :
    List (CallOutcome α) → Option (Except Unit α × List Nat)
  | [] => none
  | CallOutcome.ok v :: _ => some (Except.ok v, [])
  | CallOutcome.exc rl :: rest =>
    let t := tries + 1
    if rl then
      -- rate limited: exponential backoff, capped, retry without limit
      (with_backoff_go t rest).map (fun p => (p.1, min (5 * 2 ^ (t - 1)) 60 :: p.2))
    else if t ≤ 2 then
      -- small transient: linear backoff, at most 2 extra attempts
      (with_backoff_go t rest).map (fun p => (p.1, 2 * t :: p.2))
    else some (Except.error (), [])

def with_backoff {α : Type} (outcomes : List (CallOutcome α)) :
    Option (Except Unit α × List Nat) :=
  with_backoff_go 0 outcomes

/-! ## Content pickers -/

def in_time_window (now_local : NowInfo) (window : String) : Bool :=
  let h := now_local.hour
  if window = "morning" then decide (7 ≤ h ∧ h < 11)
  else if window = "evening" then decide (19 ≤ h ∧ h < 23)
  else if window = "midday" then decide (11 ≤ h ∧ h < 19)
  else false

def is_quiet_hours (now_local : NowInfo) : Bool :=
  let h := now_local.hour
  if NO_POST_START_HOUR ≤ NO_POST_END_HOUR then
    decide (NO_POST_START_HOUR ≤ h ∧ h < NO_POST_END_HOUR)
  else
    decide (NO_POST_START_HOUR ≤ h ∨ h < NO_POST_END_HOUR)

/-- The picker `pick_without_recent`: walk a shuffled copy of the pool and return the
first text not used in the last 7 days; if all were used recently, fall
back to `random.choice(pool)`.  The shuffle outcome `shuffled` and the
fallback choice index are supplied by the caller (they come from the
random number generator). -/
def pick_without_recent (state : BotState) (tnow : Int) (pool : List String)
    (shuffled : List String) (choiceIdx : Nat) : String :=
  match shuffled.find? (fun s => !recently_used_text state tnow s 7) with
  | some s => s
  | none => defChoice pool choiceIdx

/-- Randomness consumed by one invocation of the greeting-text builders. -/
structure TextRand where
  shuffled : List String
  choiceIdx : Nat
  gmIdx : Nat
  gnBaseIdx : Nat
  gnEmojiRoll : Bool
  gnEmojiIdx : Nat
  deriving DecidableEq, Repr

def build_gm_short (gmIdx : Nat) : String :=
  defChoice GM_SHORT gmIdx

def build_gn_short (r : TextRand) : String :=
  let base := defChoice GN_SHORT_BASE r.gnBaseIdx
  if r.gnEmojiRoll then base ++ " " ++ defChoice RANDOM_GN_EMOJIS r.gnEmojiIdx else base

def pick_gmgn_text (state : BotState) (now_local : NowInfo) (long : Bool) (r : TextRand)
    (tnow : Int) : String :=
  if in_time_window now_local "morning" then
    if long then pick_without_recent state tnow GM_LONG r.shuffled r.choiceIdx
    else build_gm_short r.gmIdx
  else if in_time_window now_local "evening" then
    if long then pick_without_recent state tnow GN_LONG r.shuffled r.choiceIdx
    else build_gn_short r
  else build_gm_short r.gmIdx

/-- The picker `pick_link_short`: same walk as `pick_without_recent` but over the
shuffled link pools. -/
def pick_link_short (state : BotState) (shuffled : List String) (choiceIdx : Nat)
    (tnow : Int) : String :=
  match shuffled.find? (fun url => !recently_used_text state tnow url 7) with
  | some url => url
  | none => defChoice LINK_POOLS choiceIdx

/-! ## Action selection with caps -/

def choose_action_with_caps (now_local : NowInfo) (pertype : PerType) : String :=
  let h := now_local.hour
  if 7 ≤ h ∧ h < 11 then
    if pertype.post_img_gmgn_short < MAX_IMG_GMGN_PER_DAY ∧
        pertype.post_img_gmgn_short = 0 then "post_img_gmgn_short"
    else if pertype.post_short_link < MAX_SHORT_LINK_PER_DAY then "post_short_link"
    else if pertype.post_gmgn_long < MAX_GMGN_LONG_PER_DAY then "post_gmgn_long"
    else "reblog"
  else if 11 ≤ h ∧ h < 19 then
    if pertype.post_short_link < MAX_SHORT_LINK_PER_DAY then "post_short_link"
    else if pertype.post_gmgn_long < MAX_GMGN_LONG_PER_DAY then "post_gmgn_long"
    else "reblog"
  else if 19 ≤ h ∧ h < 23 then
    if pertype.post_img_gmgn_short < MAX_IMG_GMGN_PER_DAY then "post_img_gmgn_short"
    else if pertype.post_short_link < MAX_SHORT_LINK_PER_DAY then "post_short_link"
    else if pertype.post_gmgn_long < MAX_GMGN_LONG_PER_DAY then "post_gmgn_long"
    else "reblog"
  else
    if pertype.post_short_link < MAX_SHORT_LINK_PER_DAY then "post_short_link"
    else if pertype.post_gmgn_long < MAX_GMGN_LONG_PER_DAY then "post_gmgn_long"
    else "reblog"

/-! ## Notifications, timeline items, and the per-cycle oracle -/

/-- The mention's status payload; `sid = none` models a missing or falsy
`status["id"]`. -/
structure NStatus where
  sid : Option String
  deriving DecidableEq, Repr

/-- One notification as seen by `fetch_unprocessed_mentions`: `nid` is
`str(n.get("id"))` (the empty string models a falsy id). -/
structure Notif where
  ntype : String
  nid : String
  status : Option NStatus
  deriving DecidableEq, Repr

/-- One home-timeline status as seen by `pick_safe_reblog`:
`has_reblog` models `item.get("reblog") is not None`. -/
structure TLItem where
  sid : Option String
  account_id : Option String
  has_reblog : Bool
  deriving DecidableEq, Repr

/-- Everything the environment feeds one cycle: the fetched notification
page, the shuffled home-timeline page, the identity lookup result, the
outcome of every remote call that `with_backoff` either completes or
turns into a propagated exception, and every random draw.
`mentionIdx` models `random.shuffle(fresh_mentions)` followed by
`fresh_mentions[0]`, i.e. picking an arbitrary element of the filtered
list.  `favouriteOk`/`replyOk`/`reblogOk` are `false` when the wrapped
remote call ultimately raises after retries are exhausted;
`postOutcome` is the result of `post_status` (`Except.error` = raised,
`Except.ok none` = falsy status id). -/
structure Oracle where
  notifications : List Notif
  mentionIdx : Nat
  favBranch : Bool
  favouriteOk : Bool
  replyIs70 : Bool
  replyIdx : Nat
  replyOk : Bool
  timeline : List TLItem
  myId : Option String
  reblogOk : Bool
  freshImage : Option String
  freshImage2 : Option String
  longImgRoll : Bool
  textRand1 : TextRand
  textRand2 : TextRand
  linkShuffled : List String
  linkIdx : Nat
  postOutcome : Except Unit (Option String)

/-! ## Opt-in engagements -/

def fetch_unprocessed_mentions (items : List Notif) (state : BotState) : List Notif :=
  items.filter (fun n =>
    decide (n.ntype = "mention" ∧ n.nid ≠ "" ∧
      n.nid ∉ state.processed_notifications))

/-- The function `engage_for_notification`: `Except.error ()` models the exception
that propagates when the favourite/reply call fails after retries. -/
def engage_for_notification (n : Notif) (o : Oracle) : Except Unit (Option String) :=
  match n.status with
  | none => Except.ok none
  | some stt =>
    match stt.sid with
    | none => Except.ok none
    | some _ =>
      if o.favBranch then
        if o.favouriteOk then Except.ok (some "favourite") else Except.error ()
      else
        let reply := if o.replyIs70 then defChoice COMMENT_SHORT o.replyIdx
                     else defChoice COMMENT_EMOJIS o.replyIdx
        if o.replyOk then Except.ok (some ("reply:" ++ reply)) else Except.error ()

/-! ## Safe reblog picker -/

/-- The filter body of `pick_safe_reblog`'s loop for one timeline item.
The source re-fetches `account_verify_credentials` for every item; its
(stable) result is modelled by `myId`, `none` when the lookup failed. -/
def reblog_filter (recent : List String) (myId : Option String) (item : TLItem) :
    Option String :=
  if myId.isSome ∧ item.account_id = myId then none
  else
    match item.sid with
    | none => none
    | some sid =>
      if sid ∈ recent then none
      else if item.has_reblog then none
      else some sid

def pick_safe_reblog (tl : List TLItem) (myId : Option String) (state : BotState) :
    Option String :=
  tl.findSome? (reblog_filter state.recent_reblogs myId)

/-! ## Action engine -/

def can_post (state : BotState) : Bool :=
  decide (state.daily.posts < MAX_POSTS_PER_DAY) &&
  decide (state.hourly.posts < MAX_POSTS_PER_HOUR)

def can_engage (state : BotState) : Bool :=
  decide (state.daily.engagements < MAX_ENGAGEMENTS_PER_DAY) &&
  decide (state.hourly.engagements < MAX_ENGAGEMENTS_PER_HOUR)

/-- Result of one cycle.  `raised` models an exception escaping
`do_one_action` (the source returns a string on every normal path). -/
inductive CycleResult where
  | engaged
  | reblogged
  | posted
  | skip
  | post_failed
  | raised
  deriving DecidableEq, Repr

def downgrade_from (pertype : PerType) (action_name : String) : String :=
  if action_name = "post_img_gmgn_short" then
    if pertype.post_short_link < MAX_SHORT_LINK_PER_DAY then "post_short_link"
    else if pertype.post_gmgn_long < MAX_GMGN_LONG_PER_DAY then "post_gmgn_long"
    else "reblog"
  else if action_name = "post_gmgn_long" then
    if pertype.post_short_link < MAX_SHORT_LINK_PER_DAY then "post_short_link"
    else "reblog"
  else if action_name = "post_short_link" then
    if pertype.post_gmgn_long < MAX_GMGN_LONG_PER_DAY then "post_gmgn_long"
    else "reblog"
  else "reblog"

/-- State mutation after a successful reblog (lines shared by both
reblog blocks of `do_one_action`). -/
def apply_reblog (state : BotState) (sid : String) : BotState :=
  { state with
      recent_reblogs := takeLast (state.recent_reblogs ++ [sid]) 400
      daily := { state.daily with posts := state.daily.posts + 1 }
      hourly := { state.hourly with posts := state.hourly.posts + 1 }
      pertype := { state.pertype with reblog := state.pertype.reblog + 1 } }

/-- Increment `state["pertype"][action]`. -/
def PerType.inc (p : PerType) (action : String) : PerType :=
  if action = "post_img_gmgn_short" then
    { p with post_img_gmgn_short := p.post_img_gmgn_short + 1 }
  else if action = "post_gmgn_long" then { p with post_gmgn_long := p.post_gmgn_long + 1 }
  else if action = "post_short_link" then { p with post_short_link := p.post_short_link + 1 }
  else if action = "reblog" then { p with reblog := p.reblog + 1 }
  else p

/-- State mutation after a successful text/image post: `remember_post`
(which touches only the history log) followed by the counter bumps. -/
def apply_post (state : BotState) (text : String) (image : Option String)
    (action : String) (tnow : Int) : BotState :=
  { state with
      history := takeLast (state.history ++ [⟨text, tnow, image⟩]) 400
      daily := { state.daily with posts := state.daily.posts + 1 }
      hourly := { state.hourly with posts := state.hourly.posts + 1 }
      pertype := state.pertype.inc action }

/-- The `if action == "post_img_gmgn_short":` block: prepares text and
image, downgrading when no fresh image is available. -/
def img_block (state : BotState) (now_local : NowInfo) (o : Oracle) (pertype : PerType)
    (action : String) : String × Option String × Option String :=
  if action = "post_img_gmgn_short" then
    let t := pick_gmgn_text state now_local false o.textRand1 now_local.ts
    if o.freshImage = none then
      (downgrade_from pertype "post_img_gmgn_short", some t, o.freshImage)
    else (action, some t, o.freshImage)
  else (action, none, none)

/-- The `if action == "post_gmgn_long":` block. -/
def long_block (state : BotState) (now_local : NowInfo) (o : Oracle) (pertype : PerType) :
    String × Option String × Option String → String × Option String × Option String :=
  fun (action, text, image) =>
    if action = "post_gmgn_long" then
      if pertype.post_gmgn_long ≥ MAX_GMGN_LONG_PER_DAY then
        (downgrade_from pertype "post_gmgn_long", text, image)
      else
        let t := pick_gmgn_text state now_local true o.textRand2 now_local.ts
        (action, some t, if o.longImgRoll then o.freshImage2 else image)
    else (action, text, image)

/-- The `if action == "post_short_link":` block. -/
def short_block (state : BotState) (now_local : NowInfo) (o : Oracle) (pertype : PerType) :
    String × Option String × Option String → String × Option String × Option String :=
  fun (action, text, image) =>
    if action = "post_short_link" then
      if pertype.post_short_link ≥ MAX_SHORT_LINK_PER_DAY then
        (downgrade_from pertype "post_short_link", text, image)
      else (action, some (pick_link_short state o.linkShuffled o.linkIdx now_local.ts), image)
    else (action, text, image)

/-- The tail of the posting section: the second reblog block (reached
through downgrades), the `if not text` guard (at that point
`action != "reblog"` always holds, the reblog block having returned),
and the `post_status` call with its success/failure bookkeeping. -/
def content_finish (state : BotState) (now_local : NowInfo) (o : Oracle) :
    String × Option String × Option String → CycleResult × BotState :=
  fun (action, text, image) =>
    if action = "reblog" then
      match pick_safe_reblog o.timeline o.myId state with
      | some sid =>
        if o.reblogOk then (CycleResult.reblogged, apply_reblog state sid)
        else (CycleResult.skip, state)
      | none => (CycleResult.skip, state)
    else if text.getD "" = "" then (CycleResult.skip, state)
    else
      match o.postOutcome with
      | Except.error _ => (CycleResult.post_failed, state)
      | Except.ok none => (CycleResult.post_failed, state)
      | Except.ok (some _) =>
        (CycleResult.posted, apply_post state (text.getD "") image action now_local.ts)

/-- Lines 569–631 of the source: the three content-preparation blocks in
sequence, then the finishing code. -/
def content_chain (state : BotState) (now_local : NowInfo) (o : Oracle) (pertype : PerType)
    (action : String) : CycleResult × BotState :=
  content_finish state now_local o
    (short_block state now_local o pertype
      (long_block state now_local o pertype
        (img_block state now_local o pertype action)))

/-- The fallback after the immediate reblog block failed or found no
candidate (lines 560–567). -/
def reblog_fallback (state : BotState) (now_local : NowInfo) (o : Oracle)
    (pertype : PerType) : CycleResult × BotState :=
  if pertype.post_short_link < MAX_SHORT_LINK_PER_DAY then
    content_chain state now_local o pertype "post_short_link"
  else if pertype.post_gmgn_long < MAX_GMGN_LONG_PER_DAY then
    content_chain state now_local o pertype "post_gmgn_long"
  else (CycleResult.skip, state)

/-- The posting section of `do_one_action` (guarded by `can_post` and
quiet hours), including the immediate handling of a `reblog` choice. -/
def do_post_phase (state : BotState) (now_local : NowInfo) (o : Oracle) :
    CycleResult × BotState :=
  if can_post state && !is_quiet_hours now_local then
    let pertype := state.pertype
    let action := choose_action_with_caps now_local pertype
    if action = "reblog" then
      match pick_safe_reblog o.timeline o.myId state with
      | some sid =>
        if o.reblogOk then (CycleResult.reblogged, apply_reblog state sid)
        else reblog_fallback state now_local o pertype
      | none => reblog_fallback state now_local o pertype
    else content_chain state now_local o pertype action
  else (CycleResult.skip, state)

/-- State mutation after a successful engagement: mark the id processed
(only a truthy id is appended) and bump the engagement counters. -/
def apply_engage (state : BotState) (nid : String) : BotState :=
  if nid ≠ "" then
    { state with
        processed_notifications := takeLast (state.processed_notifications ++ [nid]) 500
        daily := { state.daily with engagements := state.daily.engagements + 1 }
        hourly := { state.hourly with engagements := state.hourly.engagements + 1 } }
  else
    { state with
        daily := { state.daily with engagements := state.daily.engagements + 1 }
        hourly := { state.hourly with engagements := state.hourly.engagements + 1 } }

/-- The body of `do_one_action` after the day/hour bucket resets: try
one opt-in engagement (the shuffle-then-head pick of a fresh mention is
`fresh.get?` at the oracle index), otherwise fall through to the posting
section.  An exception escaping the engagement call yields
`CycleResult.raised` together with the state as mutated so far (the
Python state dict is mutated in place, so the caller that catches the
exception observes it). -/
def do_one_action_after_resets (st2 : BotState) (now_local : NowInfo) (o : Oracle) :
    CycleResult × BotState :=
  if can_engage st2 then
    match (fetch_unprocessed_mentions o.notifications st2).get?
        (o.mentionIdx % (fetch_unprocessed_mentions o.notifications st2).length) with
    | some n =>
      match engage_for_notification n o with
      | Except.error _ => (CycleResult.raised, st2)
      | Except.ok none => do_post_phase st2 now_local o
      | Except.ok (some _) => (CycleResult.engaged, apply_engage st2 n.nid)
    | none => do_post_phase st2 now_local o
  else do_post_phase st2 now_local o

/-- One cycle (`do_one_action`): reset day/hour buckets, then run the
engagement/posting body. -/
def do_one_action (st0 : BotState) (now_local : NowInfo) (o : Oracle) :
    CycleResult × BotState :=
  do_one_action_after_resets
    (reset_hourly_if_needed (reset_daily_if_needed st0 now_local) now_local) now_local o

/-- A run: fold `do_one_action` over a list of cycle inputs starting
from the fresh state `load_state` produces on first run. -/
def run_cycles (steps : List (NowInfo × Oracle)) : BotState :=
  List.foldl (fun s p => (do_one_action s p.1 p.2).2) initial_state steps

/-! ## Helper lemmas about the list operations of the state store -/

lemma takeLast_sublist {α : Type} (l : List α) (n : Nat) : (takeLast l n).Sublist l :=
  List.drop_sublist _ _

lemma nodup_takeLast {α : Type} {l : List α} (n : Nat) (h : l.Nodup) : (takeLast l n).Nodup :=
  List.Sublist.nodup (takeLast_sublist l n) h

lemma mem_of_mem_takeLast {α : Type} {l : List α} {n : Nat} {a : α}
    (h : a ∈ takeLast l n) : a ∈ l :=
  (takeLast_sublist l n).subset h

lemma mem_takeLast_append_self {α : Type} (l : List α) (a : α) (n : Nat) :
    a ∈ takeLast (l ++ [a]) (n + 1) := by
  unfold takeLast
  rw [List.drop_append_of_le_length (by simp)]
  simp

lemma nodup_append_singleton {α : Type} {l : List α} {a : α} (hl : l.Nodup) (ha : a ∉ l) :
    (l ++ [a]).Nodup := by
  rw [List.nodup_append]
  refine ⟨hl, List.nodup_singleton a, ?_⟩
  intro x hx hx1
  rw [List.mem_singleton] at hx1
  exact ha (hx1 ▸ hx)

lemma defChoice_mem {l : List String} (h : l ≠ []) (i : Nat) : defChoice l i ∈ l := by
  unfold defChoice
  have hlt : i % l.length < l.length := Nat.mod_lt _ (List.length_pos.mpr h)
  rw [List.get?_eq_get hlt]
  simp only [Option.getD_some]
  exact List.get_mem l _ hlt

/-! ## C8: daily reset idempotence -/

/-- C8: for every state and every instant, running `reset_daily_if_needed`
twice with the same instant produces the same state as running it once —
the second call observes a matching date key and is a no-op, including
the last-200 truncation of the recent-reblog list. -/
theorem c8_reset_daily_idempotent (state : BotState) (now_local : NowInfo) :
    reset_daily_if_needed (reset_daily_if_needed state now_local) now_local =
      reset_daily_if_needed state now_local := by
  unfold reset_daily_if_needed
  by_cases h : state.daily.date = now_local.dateKey
  · simp [h]
  · simp [h]

/-! ## C6: morning selector -/

/-- C6: in the morning window (hour in `[7,11)`) the selector returns
`post_img_gmgn_short` exactly when its daily count is 0, otherwise
`post_short_link` when under its cap of 2, otherwise `post_gmgn_long`
when under its cap of 1, otherwise `reblog`; in particular at 08:00 with
the image-greeting count at 2 and no short link used today it yields
`post_short_link`. -/
theorem c6_morning_selector (now_local : NowInfo) (pertype : PerType)
    (h1 : 7 ≤ now_local.hour) (h2 : now_local.hour < 11) :
    choose_action_with_caps now_local pertype =
      (if pertype.post_img_gmgn_short = 0 then "post_img_gmgn_short"
       else if pertype.post_short_link < 2 then "post_short_link"
       else if pertype.post_gmgn_long < 1 then "post_gmgn_long"
       else "reblog") ∧
    choose_action_with_caps ⟨"", 8, 0⟩ ⟨2, 0, 0, 0⟩ = "post_short_link" := by
  constructor
  · unfold choose_action_with_caps MAX_IMG_GMGN_PER_DAY MAX_SHORT_LINK_PER_DAY
      MAX_GMGN_LONG_PER_DAY
    rw [if_pos ⟨h1, h2⟩]
    by_cases h0 : pertype.post_img_gmgn_short = 0
    · rw [if_pos ⟨by omega, h0⟩, if_pos h0]
    · rw [if_neg (by tauto), if_neg h0]
  · decide

/-- Witness for C6 at the concrete scenario of the claim: hour 8,
image-greeting count 2, short-link count 0. -/
theorem c6_morning_selector_witness :
    choose_action_with_caps ⟨"", 8, 0⟩ ⟨2, 0, 0, 0⟩ = "post_short_link" :=
  (c6_morning_selector ⟨"", 8, 0⟩ ⟨2, 0, 0, 0⟩ (by decide) (by decide)).2

/-! ## C5: retry/backoff wrapper -/

lemma with_backoff_go_rateLimit {α : Type} (v : α) (rest : List (CallOutcome α)) :
    ∀ (n tries : Nat),
      with_backoff_go tries
          (List.replicate n (CallOutcome.exc true) ++ CallOutcome.ok v :: rest) =
        some (Except.ok v, (List.range n).map (fun i => min (5 * 2 ^ (tries + i)) 60)) := by
  intro n
  induction n with
  | zero => intro tries; simp [with_backoff_go]
  | succ n ih =>
    intro tries
    rw [List.replicate_succ, List.cons_append]
    simp only [with_backoff_go, if_true]
    rw [ih (tries + 1)]
    simp only [Option.map_some', List.range_succ_eq_map, List.map_cons, List.map_map]
    refine congrArg some (congrArg _ ?_)
    rw [Nat.add_sub_cancel, Nat.add_zero]
    refine congrArg _ (List.map_congr_left ?_)
    intro i _
    simp only [Function.comp]
    have : tries + 1 + i = tries + (i + 1) := by omega
    rw [this]

/-- C5: the retry wrapper, run on any trace of call outcomes: (a) on a
run of `n` rate-limit signals followed by a success it sleeps
`min(5·2^(attempt−1), 60)` seconds before each retry and succeeds for
every `n` — no wrapper-imposed attempt limit; (b) on three non-rate-limit
errors it retries twice with linear backoff `2s·attemptNumber`
(sleeps 2 then 4) and then propagates the error; (c) a single transient
error is retried (sleep 2) and the following success is returned. -/
theorem c5_backoff_policy :
    (∀ (n : Nat) (v : Nat) (rest : List (CallOutcome Nat)),
        with_backoff (List.replicate n (CallOutcome.exc true) ++ CallOutcome.ok v :: rest) =
          some (Except.ok v, (List.range n).map (fun i => min (5 * 2 ^ i) 60))) ∧
    (∀ rest : List (CallOutcome Nat),
        with_backoff (CallOutcome.exc false :: CallOutcome.exc false ::
            CallOutcome.exc false :: rest) =
          some (Except.error (), [2, 4])) ∧
    (∀ (v : Nat) (rest : List (CallOutcome Nat)),
        with_backoff (CallOutcome.exc false :: CallOutcome.ok v :: rest) =
          some (Except.ok v, [2])) := by
  refine ⟨fun n v rest => ?_, fun rest => ?_, fun v rest => ?_⟩
  · have h := with_backoff_go_rateLimit v rest n 0
    simpa [with_backoff] using h
  · simp [with_backoff, with_backoff_go]
  · simp [with_backoff, with_backoff_go]

/-! ## Facts about the downgrade chain and the selector -/

lemma downgrade_ne_img (pertype : PerType) (a : String) :
    downgrade_from pertype a ≠ "post_img_gmgn_short" := by
  unfold downgrade_from
  split_ifs <;> decide

lemma downgrade_link_lt (pertype : PerType) (a : String)
    (h : downgrade_from pertype a = "post_short_link") :
    pertype.post_short_link < MAX_SHORT_LINK_PER_DAY := by
  unfold downgrade_from at h
  split_ifs at h <;> first | assumption | simp at h

lemma downgrade_long_lt (pertype : PerType) (a : String)
    (h : downgrade_from pertype a = "post_gmgn_long") :
    pertype.post_gmgn_long < MAX_GMGN_LONG_PER_DAY := by
  unfold downgrade_from at h
  split_ifs at h <;> first | assumption | simp at h

lemma choose_img_lt (now_local : NowInfo) (pertype : PerType)
    (h : choose_action_with_caps now_local pertype = "post_img_gmgn_short") :
    pertype.post_img_gmgn_short < MAX_IMG_GMGN_PER_DAY := by
  simp only [choose_action_with_caps] at h
  split_ifs at h with h1 h2 <;> first | exact h2.1 | assumption | simp at h

/-! ## Shape lemmas for the posting section -/

lemma img_block_fst (state : BotState) (now_local : NowInfo) (o : Oracle)
    (pertype : PerType) (a : String)
    (h : (img_block state now_local o pertype a).1 = "post_img_gmgn_short") :
    a = "post_img_gmgn_short" := by
  unfold img_block at h
  by_cases h1 : a = "post_img_gmgn_short"
  · exact h1
  · rw [if_neg h1] at h
    exact h

lemma long_block_fst (state : BotState) (now_local : NowInfo) (o : Oracle)
    (pertype : PerType) (r : String × Option String × Option String)
    (h : (long_block state now_local o pertype r).1 = "post_gmgn_long") :
    pertype.post_gmgn_long < MAX_GMGN_LONG_PER_DAY := by
  obtain ⟨a, t, i⟩ := r
  unfold long_block at h
  dsimp only at h
  by_cases h1 : a = "post_gmgn_long"
  · rw [if_pos h1] at h
    by_cases h2 : pertype.post_gmgn_long ≥ MAX_GMGN_LONG_PER_DAY
    · rw [if_pos h2] at h
      have h3 : downgrade_from pertype "post_gmgn_long" = "post_gmgn_long" := h
      exact downgrade_long_lt _ _ h3
    · omega
  · rw [if_neg h1] at h
    have h3 : a = "post_gmgn_long" := h
    exact absurd h3 h1

lemma long_block_fst_img (state : BotState) (now_local : NowInfo) (o : Oracle)
    (pertype : PerType) (r : String × Option String × Option String)
    (h : (long_block state now_local o pertype r).1 = "post_img_gmgn_short") :
    r.1 = "post_img_gmgn_short" := by
  obtain ⟨a, t, i⟩ := r
  unfold long_block at h
  dsimp only at h ⊢
  by_cases h1 : a = "post_gmgn_long"
  · rw [if_pos h1] at h
    by_cases h2 : pertype.post_gmgn_long ≥ MAX_GMGN_LONG_PER_DAY
    · rw [if_pos h2] at h
      have h3 : downgrade_from pertype "post_gmgn_long" = "post_img_gmgn_short" := h
      exact absurd h3 (downgrade_ne_img _ _)
    · rw [if_neg h2] at h
      exact h
  · rw [if_neg h1] at h
    exact h

lemma short_block_fst (state : BotState) (now_local : NowInfo) (o : Oracle)
    (pertype : PerType) (r : String × Option String × Option String)
    (h : (short_block state now_local o pertype r).1 = "post_short_link") :
    pertype.post_short_link < MAX_SHORT_LINK_PER_DAY := by
  obtain ⟨a, t, i⟩ := r
  unfold short_block at h
  dsimp only at h
  by_cases h1 : a = "post_short_link"
  · rw [if_pos h1] at h
    by_cases h2 : pertype.post_short_link ≥ MAX_SHORT_LINK_PER_DAY
    · rw [if_pos h2] at h
      have h3 : downgrade_from pertype "post_short_link" = "post_short_link" := h
      exact downgrade_link_lt _ _ h3
    · omega
  · rw [if_neg h1] at h
    have h3 : a = "post_short_link" := h
    exact absurd h3 h1

lemma short_block_fst_long (state : BotState) (now_local : NowInfo) (o : Oracle)
    (pertype : PerType) (r : String × Option String × Option String)
    (h : (short_block state now_local o pertype r).1 = "post_gmgn_long") :
    r.1 = "post_gmgn_long" ∨ pertype.post_gmgn_long < MAX_GMGN_LONG_PER_DAY := by
  obtain ⟨a, t, i⟩ := r
  unfold short_block at h
  dsimp only at h ⊢
  by_cases h1 : a = "post_short_link"
  · rw [if_pos h1] at h
    by_cases h2 : pertype.post_short_link ≥ MAX_SHORT_LINK_PER_DAY
    · rw [if_pos h2] at h
      have h3 : downgrade_from pertype "post_short_link" = "post_gmgn_long" := h
      exact Or.inr (downgrade_long_lt _ _ h3)
    · rw [if_neg h2] at h
      have h3 : a = "post_gmgn_long" := h
      rw [h1] at h3
      simp at h3
  · rw [if_neg h1] at h
    exact Or.inl h

lemma short_block_fst_img (state : BotState) (now_local : NowInfo) (o : Oracle)
    (pertype : PerType) (r : String × Option String × Option String)
    (h : (short_block state now_local o pertype r).1 = "post_img_gmgn_short") :
    r.1 = "post_img_gmgn_short" := by
  obtain ⟨a, t, i⟩ := r
  unfold short_block at h
  dsimp only at h ⊢
  by_cases h1 : a = "post_short_link"
  · rw [if_pos h1] at h
    by_cases h2 : pertype.post_short_link ≥ MAX_SHORT_LINK_PER_DAY
    · rw [if_pos h2] at h
      have h3 : downgrade_from pertype "post_short_link" = "post_img_gmgn_short" := h
      exact absurd h3 (downgrade_ne_img _ _)
    · rw [if_neg h2] at h
      have h3 : a = "post_img_gmgn_short" := h
      rw [h1] at h3
      simp at h3
  · rw [if_neg h1] at h
    exact h

lemma pick_safe_reblog_not_recent {tl : List TLItem} {myId : Option String}
    {state : BotState} {sid : String}
    (h : pick_safe_reblog tl myId state = some sid) : sid ∉ state.recent_reblogs := by
  unfold pick_safe_reblog at h
  obtain ⟨item, hmem, hf⟩ := List.exists_of_findSome?_eq_some h
  unfold reblog_filter at hf
  by_cases hown : (myId.isSome = true ∧ item.account_id = myId)
  · rw [if_pos hown] at hf
    simp at hf
  · rw [if_neg hown] at hf
    cases hsid : item.sid with
    | none =>
      rw [hsid] at hf
      simp at hf
    | some s =>
      rw [hsid] at hf
      dsimp only at hf
      by_cases hrec : s ∈ state.recent_reblogs
      · rw [if_pos hrec] at hf
        simp at hf
      · rw [if_neg hrec] at hf
        by_cases hrb : item.has_reblog = true
        · rw [if_pos hrb] at hf
          simp at hf
        · rw [if_neg hrb] at hf
          rw [Option.some_inj] at hf
          exact hf ▸ hrec

lemma content_finish_shape (state : BotState) (now_local : NowInfo) (o : Oracle)
    (r : String × Option String × Option String) :
    content_finish state now_local o r = (CycleResult.skip, state) ∨
    content_finish state now_local o r = (CycleResult.post_failed, state) ∨
    (∃ sid, content_finish state now_local o r = (CycleResult.reblogged, apply_reblog state sid) ∧
      sid ∉ state.recent_reblogs) ∨
    (∃ t i, content_finish state now_local o r =
      (CycleResult.posted, apply_post state t i r.1 now_local.ts)) := by
  obtain ⟨a, t, i⟩ := r
  unfold content_finish
  dsimp only
  by_cases h1 : a = "reblog"
  · rw [if_pos h1]
    cases hpick : pick_safe_reblog o.timeline o.myId state with
    | none => exact Or.inl rfl
    | some sid =>
      dsimp only
      by_cases hok : o.reblogOk = true
      · rw [if_pos hok]
        exact Or.inr (Or.inr (Or.inl ⟨sid, rfl, pick_safe_reblog_not_recent hpick⟩))
      · rw [if_neg hok]
        exact Or.inl rfl
  · rw [if_neg h1]
    by_cases h2 : t.getD "" = ""
    · rw [if_pos h2]
      exact Or.inl rfl
    · rw [if_neg h2]
      cases hpost : o.postOutcome with
      | error e => exact Or.inr (Or.inl rfl)
      | ok k =>
        cases k with
        | none => exact Or.inr (Or.inl rfl)
        | some s =>
          exact Or.inr (Or.inr (Or.inr ⟨t.getD "", i, rfl⟩))

lemma content_chain_shape (state : BotState) (now_local : NowInfo) (o : Oracle)
    (pertype : PerType) (a0 : String)
    (h0 : a0 = "post_img_gmgn_short" → pertype.post_img_gmgn_short < MAX_IMG_GMGN_PER_DAY) :
    content_chain state now_local o pertype a0 = (CycleResult.skip, state) ∨
    content_chain state now_local o pertype a0 = (CycleResult.post_failed, state) ∨
    (∃ sid, content_chain state now_local o pertype a0 =
        (CycleResult.reblogged, apply_reblog state sid) ∧ sid ∉ state.recent_reblogs) ∨
    (∃ t i a, content_chain state now_local o pertype a0 =
        (CycleResult.posted, apply_post state t i a now_local.ts) ∧
      (a = "post_img_gmgn_short" → pertype.post_img_gmgn_short < MAX_IMG_GMGN_PER_DAY) ∧
      (a = "post_gmgn_long" → pertype.post_gmgn_long < MAX_GMGN_LONG_PER_DAY) ∧
      (a = "post_short_link" → pertype.post_short_link < MAX_SHORT_LINK_PER_DAY)) := by
  unfold content_chain
  rcases content_finish_shape state now_local o
      (short_block state now_local o pertype
        (long_block state now_local o pertype (img_block state now_local o pertype a0)))
    with h | h | ⟨sid, h, hs⟩ | ⟨t, i, h⟩
  · exact Or.inl h
  · exact Or.inr (Or.inl h)
  · exact Or.inr (Or.inr (Or.inl ⟨sid, h, hs⟩))
  · refine Or.inr (Or.inr (Or.inr ⟨t, i, _, h, ?_, ?_, ?_⟩))
    · intro ha
      exact h0 (img_block_fst _ _ _ _ _
        (long_block_fst_img _ _ _ _ _ (short_block_fst_img _ _ _ _ _ ha)))
    · intro ha
      rcases short_block_fst_long _ _ _ _ _ ha with hl | hl
      · exact long_block_fst _ _ _ _ _ hl
      · exact hl
    · intro ha
      exact short_block_fst _ _ _ _ _ ha

lemma reblog_fallback_shape (state : BotState) (now_local : NowInfo) (o : Oracle)
    (pertype : PerType) :
    reblog_fallback state now_local o pertype = (CycleResult.skip, state) ∨
    reblog_fallback state now_local o pertype = (CycleResult.post_failed, state) ∨
    (∃ sid, reblog_fallback state now_local o pertype =
        (CycleResult.reblogged, apply_reblog state sid) ∧ sid ∉ state.recent_reblogs) ∨
    (∃ t i a, reblog_fallback state now_local o pertype =
        (CycleResult.posted, apply_post state t i a now_local.ts) ∧
      (a = "post_img_gmgn_short" → pertype.post_img_gmgn_short < MAX_IMG_GMGN_PER_DAY) ∧
      (a = "post_gmgn_long" → pertype.post_gmgn_long < MAX_GMGN_LONG_PER_DAY) ∧
      (a = "post_short_link" → pertype.post_short_link < MAX_SHORT_LINK_PER_DAY)) := by
  unfold reblog_fallback
  split_ifs with h1 h2
  · exact content_chain_shape state now_local o pertype _ (fun h => by simp at h)
  · exact content_chain_shape state now_local o pertype _ (fun h => by simp at h)
  · exact Or.inl rfl

lemma do_post_phase_shape (state : BotState) (now_local : NowInfo) (o : Oracle) :
    do_post_phase state now_local o = (CycleResult.skip, state) ∨
    do_post_phase state now_local o = (CycleResult.post_failed, state) ∨
    (can_post state = true ∧
      ((∃ sid, do_post_phase state now_local o =
          (CycleResult.reblogged, apply_reblog state sid) ∧ sid ∉ state.recent_reblogs) ∨
       (∃ t i a, do_post_phase state now_local o =
          (CycleResult.posted, apply_post state t i a now_local.ts) ∧
        (a = "post_img_gmgn_short" →
          state.pertype.post_img_gmgn_short < MAX_IMG_GMGN_PER_DAY) ∧
        (a = "post_gmgn_long" → state.pertype.post_gmgn_long < MAX_GMGN_LONG_PER_DAY) ∧
        (a = "post_short_link" →
          state.pertype.post_short_link < MAX_SHORT_LINK_PER_DAY)))) := by
  unfold do_post_phase
  by_cases hg : (can_post state && !is_quiet_hours now_local) = true
  · rw [if_pos hg]
    have hcp : can_post state = true := (Bool.and_eq_true _ _).mp hg |>.1
    have hshape :
        ∀ res : CycleResult × BotState,
          (res = (CycleResult.skip, state) ∨
           res = (CycleResult.post_failed, state) ∨
           (∃ sid, res = (CycleResult.reblogged, apply_reblog state sid) ∧
             sid ∉ state.recent_reblogs) ∨
           (∃ t i a, res = (CycleResult.posted, apply_post state t i a now_local.ts) ∧
             (a = "post_img_gmgn_short" →
               state.pertype.post_img_gmgn_short < MAX_IMG_GMGN_PER_DAY) ∧
             (a = "post_gmgn_long" →
               state.pertype.post_gmgn_long < MAX_GMGN_LONG_PER_DAY) ∧
             (a = "post_short_link" →
               state.pertype.post_short_link < MAX_SHORT_LINK_PER_DAY))) →
          (res = (CycleResult.skip, state) ∨
           res = (CycleResult.post_failed, state) ∨
           (can_post state = true ∧
             ((∃ sid, res = (CycleResult.reblogged, apply_reblog state sid) ∧
                sid ∉ state.recent_reblogs) ∨
              (∃ t i a, res = (CycleResult.posted, apply_post state t i a now_local.ts) ∧
                (a = "post_img_gmgn_short" →
                  state.pertype.post_img_gmgn_short < MAX_IMG_GMGN_PER_DAY) ∧
                (a = "post_gmgn_long" →
                  state.pertype.post_gmgn_long < MAX_GMGN_LONG_PER_DAY) ∧
                (a = "post_short_link" →
                  state.pertype.post_short_link < MAX_SHORT_LINK_PER_DAY))))) := by
      intro res hr
      rcases hr with hr | hr | hr | hr
      · exact Or.inl hr
      · exact Or.inr (Or.inl hr)
      · exact Or.inr (Or.inr ⟨hcp, Or.inl hr⟩)
      · exact Or.inr (Or.inr ⟨hcp, Or.inr hr⟩)
    by_cases ha : choose_action_with_caps now_local state.pertype = "reblog"
    · rw [if_pos ha]
      cases hpick : pick_safe_reblog o.timeline o.myId state with
      | none => exact hshape _ (reblog_fallback_shape state now_local o state.pertype)
      | some sid =>
        dsimp only
        by_cases hok : o.reblogOk = true
        · rw [if_pos hok]
          exact Or.inr (Or.inr ⟨hcp,
            Or.inl ⟨sid, rfl, pick_safe_reblog_not_recent hpick⟩⟩)
        · rw [if_neg hok]
          exact hshape _ (reblog_fallback_shape state now_local o state.pertype)
    · rw [if_neg ha]
      exact hshape _ (content_chain_shape state now_local o state.pertype _
        (choose_img_lt now_local state.pertype))
  · rw [if_neg hg]
    exact Or.inl rfl

/-! ## Case analysis of one cycle -/

lemma after_resets_cases (st2 : BotState) (now_local : NowInfo) (o : Oracle) :
    do_one_action_after_resets st2 now_local o = do_post_phase st2 now_local o ∨
    do_one_action_after_resets st2 now_local o = (CycleResult.raised, st2) ∨
    (∃ nid, do_one_action_after_resets st2 now_local o =
        (CycleResult.engaged, apply_engage st2 nid) ∧
      nid ∉ st2.processed_notifications ∧ nid ≠ "" ∧ can_engage st2 = true) := by
  unfold do_one_action_after_resets
  by_cases hce : can_engage st2 = true
  · rw [if_pos hce]
    cases hget : (fetch_unprocessed_mentions o.notifications st2).get?
        (o.mentionIdx % (fetch_unprocessed_mentions o.notifications st2).length) with
    | none => exact Or.inl rfl
    | some n =>
      dsimp only
      have hmem : n ∈ fetch_unprocessed_mentions o.notifications st2 := List.get?_mem hget
      unfold fetch_unprocessed_mentions at hmem
      have hprops := (List.mem_filter.mp hmem).2
      rw [decide_eq_true_eq] at hprops
      cases hE : engage_for_notification n o with
      | error e => exact Or.inr (Or.inl rfl)
      | ok k =>
        cases k with
        | none => exact Or.inl rfl
        | some s =>
          exact Or.inr (Or.inr ⟨n.nid, rfl, hprops.2.2, hprops.2.1, hce⟩)
  · rw [if_neg hce]
    exact Or.inl rfl

/-! ## Invariants: counter caps and duplicate-free id lists -/

def caps_inv (state : BotState) : Prop :=
  state.daily.posts ≤ MAX_POSTS_PER_DAY ∧
  state.daily.engagements ≤ MAX_ENGAGEMENTS_PER_DAY ∧
  state.hourly.posts ≤ MAX_POSTS_PER_HOUR ∧
  state.hourly.engagements ≤ MAX_ENGAGEMENTS_PER_HOUR

def pertype_inv (state : BotState) : Prop :=
  state.pertype.post_img_gmgn_short ≤ MAX_IMG_GMGN_PER_DAY ∧
  state.pertype.post_gmgn_long ≤ MAX_GMGN_LONG_PER_DAY ∧
  state.pertype.post_short_link ≤ MAX_SHORT_LINK_PER_DAY

def no_dups (state : BotState) : Prop :=
  state.processed_notifications.Nodup ∧ state.recent_reblogs.Nodup

lemma can_post_lt {state : BotState} (h : can_post state = true) :
    state.daily.posts < MAX_POSTS_PER_DAY ∧ state.hourly.posts < MAX_POSTS_PER_HOUR := by
  unfold can_post at h
  simp only [Bool.and_eq_true, decide_eq_true_eq] at h
  exact h

lemma can_engage_lt {state : BotState} (h : can_engage state = true) :
    state.daily.engagements < MAX_ENGAGEMENTS_PER_DAY ∧
    state.hourly.engagements < MAX_ENGAGEMENTS_PER_HOUR := by
  unfold can_engage at h
  simp only [Bool.and_eq_true, decide_eq_true_eq] at h
  exact h

lemma caps_inv_resets {state : BotState} (now_local : NowInfo) (h : caps_inv state) :
    caps_inv (reset_hourly_if_needed (reset_daily_if_needed state now_local) now_local) := by
  unfold caps_inv at h ⊢
  unfold reset_daily_if_needed reset_hourly_if_needed
  split_ifs <;> simp_all

lemma pertype_inv_resets {state : BotState} (now_local : NowInfo) (h : pertype_inv state) :
    pertype_inv (reset_hourly_if_needed (reset_daily_if_needed state now_local) now_local) := by
  unfold pertype_inv at h ⊢
  unfold reset_daily_if_needed reset_hourly_if_needed _pertype_zero
  split_ifs <;> simp_all

lemma no_dups_resets {state : BotState} (now_local : NowInfo) (h : no_dups state) :
    no_dups (reset_hourly_if_needed (reset_daily_if_needed state now_local) now_local) := by
  unfold no_dups at h ⊢
  unfold reset_daily_if_needed reset_hourly_if_needed
  split_ifs <;> simp_all <;> exact nodup_takeLast _ h.2

lemma pertype_inc_inv (p : PerType) (a : String)
    (hp : p.post_img_gmgn_short ≤ MAX_IMG_GMGN_PER_DAY ∧
      p.post_gmgn_long ≤ MAX_GMGN_LONG_PER_DAY ∧
      p.post_short_link ≤ MAX_SHORT_LINK_PER_DAY)
    (h1 : a = "post_img_gmgn_short" → p.post_img_gmgn_short < MAX_IMG_GMGN_PER_DAY)
    (h2 : a = "post_gmgn_long" → p.post_gmgn_long < MAX_GMGN_LONG_PER_DAY)
    (h3 : a = "post_short_link" → p.post_short_link < MAX_SHORT_LINK_PER_DAY) :
    (p.inc a).post_img_gmgn_short ≤ MAX_IMG_GMGN_PER_DAY ∧
    (p.inc a).post_gmgn_long ≤ MAX_GMGN_LONG_PER_DAY ∧
    (p.inc a).post_short_link ≤ MAX_SHORT_LINK_PER_DAY := by
  unfold PerType.inc
  by_cases ha : a = "post_img_gmgn_short"
  · rw [if_pos ha]
    dsimp only
    have := h1 ha
    exact ⟨by omega, hp.2.1, hp.2.2⟩
  · rw [if_neg ha]
    by_cases hb : a = "post_gmgn_long"
    · rw [if_pos hb]
      dsimp only
      have := h2 hb
      exact ⟨hp.1, by omega, hp.2.2⟩
    · rw [if_neg hb]
      by_cases hc : a = "post_short_link"
      · rw [if_pos hc]
        dsimp only
        have := h3 hc
        exact ⟨hp.1, hp.2.1, by omega⟩
      · rw [if_neg hc]
        by_cases hd : a = "reblog"
        · rw [if_pos hd]
          exact hp
        · rw [if_neg hd]
          exact hp

/-! ## One-step preservation of each invariant -/

lemma caps_inv_step (state : BotState) (now_local : NowInfo) (o : Oracle)
    (h : caps_inv state) : caps_inv (do_one_action state now_local o).2 := by
  have hR := caps_inv_resets now_local h
  set st2 := reset_hourly_if_needed (reset_daily_if_needed state now_local) now_local
    with hst2
  have hdo : do_one_action state now_local o = do_one_action_after_resets st2 now_local o :=
    rfl
  rw [hdo]
  rcases after_resets_cases st2 now_local o with hc | hc | ⟨nid, hc, hnin, hne, hce⟩
  · rw [hc]
    rcases do_post_phase_shape st2 now_local o with hp | hp | ⟨hcp, hre⟩
    · rw [hp]
      exact hR
    · rw [hp]
      exact hR
    · have hlt := can_post_lt hcp
      rcases hre with ⟨sid, hp, _⟩ | ⟨t, i, a, hp, _⟩
      · rw [hp]
        unfold caps_inv at hR ⊢
        unfold apply_reblog
        dsimp only
        omega
      · rw [hp]
        unfold caps_inv at hR ⊢
        unfold apply_post
        dsimp only
        omega
  · rw [hc]
    exact hR
  · rw [hc]
    have hlt := can_engage_lt hce
    unfold caps_inv at hR ⊢
    unfold apply_engage
    split_ifs <;> dsimp only <;> omega

lemma pertype_inv_step (state : BotState) (now_local : NowInfo) (o : Oracle)
    (h : pertype_inv state) : pertype_inv (do_one_action state now_local o).2 := by
  have hR := pertype_inv_resets now_local h
  set st2 := reset_hourly_if_needed (reset_daily_if_needed state now_local) now_local
    with hst2
  have hdo : do_one_action state now_local o = do_one_action_after_resets st2 now_local o :=
    rfl
  rw [hdo]
  rcases after_resets_cases st2 now_local o with hc | hc | ⟨nid, hc, hnin, hne, hce⟩
  · rw [hc]
    rcases do_post_phase_shape st2 now_local o with hp | hp | ⟨hcp, hre⟩
    · rw [hp]
      exact hR
    · rw [hp]
      exact hR
    · rcases hre with ⟨sid, hp, _⟩ | ⟨t, i, a, hp, hb1, hb2, hb3⟩
      · rw [hp]
        unfold pertype_inv at hR ⊢
        unfold apply_reblog
        dsimp only
        exact hR
      · rw [hp]
        have hinc := pertype_inc_inv st2.pertype a hR hb1 hb2 hb3
        unfold pertype_inv at hR ⊢
        unfold apply_post
        dsimp only
        exact hinc
  · rw [hc]
    exact hR
  · rw [hc]
    unfold pertype_inv at hR ⊢
    unfold apply_engage
    split_ifs <;> dsimp only <;> exact hR

lemma no_dups_step (state : BotState) (now_local : NowInfo) (o : Oracle)
    (h : no_dups state) : no_dups (do_one_action state now_local o).2 := by
  have hR := no_dups_resets now_local h
  set st2 := reset_hourly_if_needed (reset_daily_if_needed state now_local) now_local
    with hst2
  have hdo : do_one_action state now_local o = do_one_action_after_resets st2 now_local o :=
    rfl
  rw [hdo]
  rcases after_resets_cases st2 now_local o with hc | hc | ⟨nid, hc, hnin, hne, hce⟩
  · rw [hc]
    rcases do_post_phase_shape st2 now_local o with hp | hp | ⟨hcp, hre⟩
    · rw [hp]
      exact hR
    · rw [hp]
      exact hR
    · rcases hre with ⟨sid, hp, hsnin⟩ | ⟨t, i, a, hp, _⟩
      · rw [hp]
        unfold no_dups at hR ⊢
        unfold apply_reblog
        dsimp only
        exact ⟨hR.1, nodup_takeLast _ (nodup_append_singleton hR.2 hsnin)⟩
      · rw [hp]
        unfold no_dups at hR ⊢
        unfold apply_post
        dsimp only
        exact hR
  · rw [hc]
    exact hR
  · rw [hc]
    unfold no_dups at hR ⊢
    unfold apply_engage
    rw [if_pos hne]
    dsimp only
    exact ⟨nodup_takeLast _ (nodup_append_singleton hR.1 hnin), hR.2⟩

/-! ## Invariants hold along every run -/

lemma foldl_inv_preserve {Inv : BotState → Prop}
    (hstep : ∀ s now_local o, Inv s → Inv (do_one_action s now_local o).2) :
    ∀ (steps : List (NowInfo × Oracle)) (s : BotState), Inv s →
      Inv (List.foldl (fun s p => (do_one_action s p.1 p.2).2) s steps)
  | [], _, hs => hs
  | _ :: rest, _, hs => foldl_inv_preserve hstep rest _ (hstep _ _ _ hs)

/-- C2: along every sequence of cycles from the fresh state, the daily
post counter never exceeds `MAX_POSTS_PER_DAY` (4) and the daily
engagement counter never exceeds `MAX_ENGAGEMENTS_PER_DAY` (10); the
hourly counters never exceed `MAX_POSTS_PER_HOUR` (2) and
`MAX_ENGAGEMENTS_PER_HOUR` (3).  (`can_post`/`can_engage` gate every
increment; the daily and hourly resets only zero the buckets, so the
bound holds within every calendar day and hour key.) -/
theorem c2_daily_hourly_caps (steps : List (NowInfo × Oracle)) :
    (run_cycles steps).daily.posts ≤ MAX_POSTS_PER_DAY ∧
    (run_cycles steps).daily.engagements ≤ MAX_ENGAGEMENTS_PER_DAY ∧
    (run_cycles steps).hourly.posts ≤ MAX_POSTS_PER_HOUR ∧
    (run_cycles steps).hourly.engagements ≤ MAX_ENGAGEMENTS_PER_HOUR :=
  foldl_inv_preserve caps_inv_step steps initial_state (by unfold caps_inv; decide)

/-- C4: along every sequence of cycles from the fresh state, each capped
per-type counter stays within its daily cap (image greeting ≤ 2, long
greeting ≤ 1, short link ≤ 2); the `reblog` entry has no cap of its own —
the selector's decision is independent of its value. -/
theorem c4_pertype_caps :
    (∀ steps : List (NowInfo × Oracle),
      (run_cycles steps).pertype.post_img_gmgn_short ≤ MAX_IMG_GMGN_PER_DAY ∧
      (run_cycles steps).pertype.post_gmgn_long ≤ MAX_GMGN_LONG_PER_DAY ∧
      (run_cycles steps).pertype.post_short_link ≤ MAX_SHORT_LINK_PER_DAY) ∧
    (∀ (now_local : NowInfo) (pertype : PerType) (k : Nat),
      choose_action_with_caps now_local { pertype with reblog := k } =
        choose_action_with_caps now_local pertype) :=
  ⟨fun steps =>
    foldl_inv_preserve pertype_inv_step steps initial_state (by unfold pertype_inv; decide),
   fun _ _ _ => rfl⟩

/-- C9: along every sequence of cycles from the fresh state, the
processed-notification list and the recent-reblog list contain no
duplicate identifiers: every append is filtered against the current
list and the trims (last 500 / last 400 / last 200 on daily reset)
preserve distinctness. -/
theorem c9_no_duplicate_ids (steps : List (NowInfo × Oracle)) :
    (run_cycles steps).processed_notifications.Nodup ∧
    (run_cycles steps).recent_reblogs.Nodup :=
  foldl_inv_preserve no_dups_step steps initial_state ⟨List.nodup_nil, List.nodup_nil⟩

/-! ## C3: quiet hours -/

lemma do_post_phase_quiet (state : BotState) (now_local : NowInfo) (o : Oracle)
    (h : is_quiet_hours now_local = true) :
    do_post_phase state now_local o = (CycleResult.skip, state) := by
  unfold do_post_phase
  simp [h]

/-- C3: whenever the local time is inside the quiet window (23:00
inclusive to 07:00 exclusive, wrapping across midnight), a cycle never
returns `posted`, `reblogged` (or `post_failed`): the posting section is
skipped entirely, so only an engagement outcome or a skip (or a
propagated engagement exception) is possible. -/
theorem c3_quiet_hours_no_posting (st0 : BotState) (now_local : NowInfo) (o : Oracle)
    (h : is_quiet_hours now_local = true) :
    (do_one_action st0 now_local o).1 ≠ CycleResult.posted ∧
    (do_one_action st0 now_local o).1 ≠ CycleResult.reblogged ∧
    (do_one_action st0 now_local o).1 ≠ CycleResult.post_failed := by
  have hdo : do_one_action st0 now_local o =
      do_one_action_after_resets
        (reset_hourly_if_needed (reset_daily_if_needed st0 now_local) now_local)
        now_local o := rfl
  rw [hdo]
  rcases after_resets_cases
      (reset_hourly_if_needed (reset_daily_if_needed st0 now_local) now_local) now_local o
    with hc | hc | ⟨nid, hc, _, _, _⟩ <;> rw [hc]
  · rw [do_post_phase_quiet _ _ _ h]
    refine ⟨?_, ?_, ?_⟩ <;> simp
  · refine ⟨?_, ?_, ?_⟩ <;> simp
  · refine ⟨?_, ?_, ?_⟩ <;> simp

/-! ## Concrete cycle inputs used by the closed-form witnesses -/

def textRand0 : TextRand := ⟨[], 0, 0, 0, false, 0⟩

def oracle0 : Oracle :=
  { notifications := []
    mentionIdx := 0
    favBranch := true
    favouriteOk := true
    replyIs70 := true
    replyIdx := 0
    replyOk := true
    timeline := []
    myId := none
    reblogOk := true
    freshImage := none
    freshImage2 := none
    longImgRoll := false
    textRand1 := textRand0
    textRand2 := textRand0
    linkShuffled := []
    linkIdx := 0
    postOutcome := Except.ok none }

/-- Witness for C3: at 23:00 the cycle result is not `posted` and not
`reblogged`. -/
theorem c3_quiet_hours_witness :
    is_quiet_hours ⟨"2025-01-01", 23, 0⟩ = true ∧
    (do_one_action initial_state ⟨"2025-01-01", 23, 0⟩ oracle0).1 ≠ CycleResult.posted ∧
    (do_one_action initial_state ⟨"2025-01-01", 23, 0⟩ oracle0).1 ≠ CycleResult.reblogged :=
  ⟨by decide,
   (c3_quiet_hours_no_posting initial_state ⟨"2025-01-01", 23, 0⟩ oracle0 (by decide)).1,
   (c3_quiet_hours_no_posting initial_state ⟨"2025-01-01", 23, 0⟩ oracle0 (by decide)).2.1⟩

/-! ## C1: marking a mention processed -/

def now_c1 : NowInfo := ⟨"2025-01-01", 12, 0⟩

/-- A cycle input with one fresh mention whose favourite call ultimately
fails after retries are exhausted. -/
def oracle_c1 : Oracle :=
  { oracle0 with
      notifications := [⟨"mention", "n1", some ⟨some "s1"⟩⟩]
      favouriteOk := false }

/-- C1 as stated is false on the code: with one fresh mention and a
favourite call that fails after retries are exhausted, the exception
propagates out of the cycle before the id is appended, so `"n1"` is NOT
added to the processed set. -/
theorem c1_counterexample :
    (do_one_action initial_state now_c1 oracle_c1).1 = CycleResult.raised ∧
    "n1" ∉ (do_one_action initial_state now_c1 oracle_c1).2.processed_notifications := by
  constructor
  · decide
  · decide

/-- C1 (amended): when an engagement is attempted for a fresh mention,
the notification id is added to the processed set whenever the
engagement call returns a kind — regardless of which branch (favourite
or reply) executed; but when the remote call ultimately fails after
retries are exhausted, the exception propagates and the id is NOT
added. -/
theorem c1_amended_processed_marking (st0 : BotState) (now_local : NowInfo) (o : Oracle)
    (n : Notif)
    (hget : (fetch_unprocessed_mentions o.notifications
          (reset_hourly_if_needed (reset_daily_if_needed st0 now_local) now_local)).get?
        (o.mentionIdx %
          (fetch_unprocessed_mentions o.notifications
            (reset_hourly_if_needed (reset_daily_if_needed st0 now_local)
              now_local)).length) = some n)
    (hce : can_engage (reset_hourly_if_needed (reset_daily_if_needed st0 now_local)
        now_local) = true) :
    ((∃ k, engage_for_notification n o = Except.ok (some k)) →
      n.nid ∈ (do_one_action st0 now_local o).2.processed_notifications) ∧
    (engage_for_notification n o = Except.error () →
      (do_one_action st0 now_local o).1 = CycleResult.raised ∧
      n.nid ∉ (do_one_action st0 now_local o).2.processed_notifications) := by
  set st2 := reset_hourly_if_needed (reset_daily_if_needed st0 now_local) now_local
    with hst2
  have hdo : do_one_action st0 now_local o = do_one_action_after_resets st2 now_local o :=
    rfl
  rw [hdo]
  have hmem : n ∈ fetch_unprocessed_mentions o.notifications st2 := List.get?_mem hget
  unfold fetch_unprocessed_mentions at hmem
  have hprops := (List.mem_filter.mp hmem).2
  rw [decide_eq_true_eq] at hprops
  unfold do_one_action_after_resets
  rw [if_pos hce, hget]
  dsimp only
  constructor
  · rintro ⟨k, hk⟩
    rw [hk]
    dsimp only
    unfold apply_engage
    rw [if_pos hprops.2.1]
    dsimp only
    exact mem_takeLast_append_self _ _ 499
  · intro hE
    rw [hE]
    dsimp only
    exact ⟨rfl, hprops.2.2⟩

/-- Successful variant of the C1 oracle. -/
def oracle_c1ok : Oracle := { oracle_c1 with favouriteOk := true }

/-- Witness for the amended C1: with the same fresh mention and a
favourite call that succeeds, `"n1"` is marked processed. -/
theorem c1_amended_witness :
    ("n1" : String) ∈
      (do_one_action initial_state now_c1 oracle_c1ok).2.processed_notifications := by
  have h := c1_amended_processed_marking initial_state now_c1 oracle_c1ok
    ⟨"mention", "n1", some ⟨some "s1"⟩⟩ (by decide) (by decide)
  exact h.1 ⟨"favourite", rfl⟩

/-! ## C10: midday/night behaviour of the long-greeting text pick -/

lemma build_gm_short_mem (i : Nat) : build_gm_short i ∈ GM_SHORT := by
  unfold build_gm_short
  exact defChoice_mem (by decide) i

/-- C10: outside the morning and evening windows, `pick_gmgn_text` with
`long = true` returns `build_gm_short` — a random member of the short
GM pool, never an item of either long pool — and the result is
independent of the state history (the 7-day anti-repetition filter is
bypassed). -/
theorem c10_long_pick_off_window (state state2 : BotState) (now_local : NowInfo)
    (r : TextRand) (tnow tnow2 : Int)
    (hm : in_time_window now_local "morning" = false)
    (he : in_time_window now_local "evening" = false) :
    pick_gmgn_text state now_local true r tnow = build_gm_short r.gmIdx ∧
    pick_gmgn_text state now_local true r tnow =
      pick_gmgn_text state2 now_local true r tnow2 ∧
    build_gm_short r.gmIdx ∈ GM_SHORT ∧
    build_gm_short r.gmIdx ∉ GM_LONG ∧
    build_gm_short r.gmIdx ∉ GN_LONG := by
  have h1 : pick_gmgn_text state now_local true r tnow = build_gm_short r.gmIdx := by
    unfold pick_gmgn_text
    simp [hm, he]
  have h2 : pick_gmgn_text state2 now_local true r tnow2 = build_gm_short r.gmIdx := by
    unfold pick_gmgn_text
    simp [hm, he]
  have hmem := build_gm_short_mem r.gmIdx
  have hdisj1 : ∀ x ∈ GM_SHORT, x ∉ GM_LONG := by decide
  have hdisj2 : ∀ x ∈ GM_SHORT, x ∉ GN_LONG := by decide
  exact ⟨h1, h1.trans h2.symm, hmem, hdisj1 _ hmem, hdisj2 _ hmem⟩

/-- Witness for C10 at 12:00. -/
theorem c10_long_pick_witness :
    in_time_window ⟨"", 12, 0⟩ "morning" = false ∧
    pick_gmgn_text initial_state ⟨"", 12, 0⟩ true textRand0 0 = build_gm_short 0 :=
  ⟨by decide,
   (c10_long_pick_off_window initial_state initial_state ⟨"", 12, 0⟩ textRand0 0 0
      (by decide) (by decide)).1⟩

/-! ## C7: the anti-repetition picker never repeats the previous pick -/

lemma pick_without_recent_mem {state : BotState} {tnow : Int}
    {pool shuffled : List String} {i : Nat}
    (hperm : shuffled.Perm pool) (hpool : pool ≠ []) :
    pick_without_recent state tnow pool shuffled i ∈ pool := by
  unfold pick_without_recent
  cases hf : shuffled.find? (fun s => !recently_used_text state tnow s 7) with
  | none => exact defChoice_mem hpool i
  | some s => exact hperm.subset (List.mem_of_find?_eq_some hf)

/-- After `remember_post` records `p1` at instant `t1`, any text that
strip-compares equal to `p1` counts as recently used at any instant
whose 7-day window still contains `t1`. -/
lemma recently_used_new_entry {state : BotState} {p1 s : String} {t1 t2 : Int}
    {m : Option String} (htrim : strip s = strip p1) (hwin : t2 - 7 * 86400 ≤ t1) :
    recently_used_text (remember_post state p1 t1 m) t2 s 7 = true := by
  unfold recently_used_text remember_post
  dsimp only
  rw [List.any_eq_true]
  refine ⟨⟨p1, t1, m⟩, mem_takeLast_append_self _ _ 399, ?_⟩
  rw [decide_eq_true_eq]
  exact ⟨hwin, htrim.symm⟩

/-- A pool member that was not recently used before the pick, and does
not strip-compare equal to the recorded text, is still not recently
used afterwards (for any later instant). -/
lemma not_recently_used_after {state : BotState} {pool : List String} {p1 s : String}
    {t1 t2 : Int} {m : Option String}
    (hs : s ∈ pool)
    (hfresh : ∀ x ∈ pool, recently_used_text state t1 x 7 = false)
    (htrim : strip s ≠ strip p1) (h12 : t1 ≤ t2) :
    recently_used_text (remember_post state p1 t1 m) t2 s 7 = false := by
  have hs_old := hfresh s hs
  unfold recently_used_text at hs_old ⊢
  unfold remember_post
  dsimp only at hs_old ⊢
  rw [List.any_eq_false] at hs_old ⊢
  intro item hitem
  have hitem' : item ∈ state.history ++ [⟨p1, t1, m⟩] := mem_of_mem_takeLast hitem
  rw [List.mem_append] at hitem'
  rw [decide_eq_true_eq]
  rcases hitem' with hold | hnew
  · have hthis := hs_old item hold
    rw [decide_eq_true_eq] at hthis
    rintro ⟨ha, hb⟩
    exact hthis ⟨by omega, hb⟩
  · rw [List.mem_singleton] at hnew
    subst hnew
    rintro ⟨_, hb⟩
    exact htrim (hb ▸ rfl)

lemma exists_strip_ne {pool : List String} (hnd : (pool.map strip).Nodup)
    (hlen : 2 ≤ pool.length) {a : String} (ha : a ∈ pool) :
    ∃ b ∈ pool, strip b ≠ strip a := by
  cases pool with
  | nil => simp at hlen
  | cons x rest1 =>
    cases rest1 with
    | nil => simp at hlen
    | cons y rest =>
      simp only [List.map_cons, List.nodup_cons] at hnd
      have hxy : strip x ≠ strip y := by
        intro hcontra
        exact hnd.1 (by rw [hcontra]; exact List.mem_cons_self _ _)
      by_cases hx : strip x = strip a
      · refine ⟨y, by simp, ?_⟩
        intro hy
        exact hxy (hx.trans hy.symm)
      · exact ⟨x, by simp, hx⟩

/-- C7: on a pool of ≥ 2 strip-distinct texts none of which were used in
the last 7 days, picking once, recording the pick with `remember_post`,
and picking again (any shuffles, any fallback indices, any later instant
within the lookback window) never returns the same text: the picker
excludes everything recently used, in particular the most recent pick,
and a strip-distinct alternative always survives. -/
theorem c7_no_immediate_repeat (state : BotState) (pool shuffled1 shuffled2 : List String)
    (i1 i2 : Nat) (t1 t2 : Int) (m : Option String)
    (hlen : 2 ≤ pool.length)
    (hnd : (pool.map strip).Nodup)
    (hperm1 : shuffled1.Perm pool) (hperm2 : shuffled2.Perm pool)
    (hfresh : ∀ s ∈ pool, recently_used_text state t1 s 7 = false)
    (h12 : t1 ≤ t2) (hwin : t2 - 7 * 86400 ≤ t1) :
    pick_without_recent
        (remember_post state (pick_without_recent state t1 pool shuffled1 i1) t1 m)
        t2 pool shuffled2 i2 ≠
      pick_without_recent state t1 pool shuffled1 i1 := by
  have hpool : pool ≠ [] := by
    intro hcon
    rw [hcon] at hlen
    simp at hlen
  set p1 := pick_without_recent state t1 pool shuffled1 i1 with hp1
  have hp1mem : p1 ∈ pool := pick_without_recent_mem hperm1 hpool
  obtain ⟨q, hqpool, hqne⟩ := exists_strip_ne hnd hlen hp1mem
  have hqpred :
      (!recently_used_text (remember_post state p1 t1 m) t2 q 7) = true := by
    rw [not_recently_used_after hqpool hfresh hqne h12]
    rfl
  have hq2 : q ∈ shuffled2 := hperm2.symm.subset hqpool
  cases hf : shuffled2.find?
      (fun s => !recently_used_text (remember_post state p1 t1 m) t2 s 7) with
  | none =>
    exact absurd hqpred (List.find?_eq_none.mp hf q hq2)
  | some s =>
    have hspred := List.find?_some hf
    have hsne : strip s ≠ strip p1 := by
      intro hcontra
      rw [recently_used_new_entry hcontra hwin] at hspred
      simp at hspred
    intro hctr
    unfold pick_without_recent at hctr
    rw [hf] at hctr
    dsimp only at hctr
    exact hsne (by rw [hctr])

/-- Witness for C7 on the two-element pool `["a", "b"]` with empty
history. -/
theorem c7_no_immediate_repeat_witness :
    (∀ s ∈ (["a", "b"] : List String), recently_used_text initial_state 0 s 7 = false) ∧
    pick_without_recent
        (remember_post initial_state
          (pick_without_recent initial_state 0 ["a", "b"] ["a", "b"] 0) 0 none)
        0 ["a", "b"] ["a", "b"] 0 ≠
      pick_without_recent initial_state 0 ["a", "b"] ["a", "b"] 0 :=
  ⟨by decide,
   c7_no_immediate_repeat initial_state ["a", "b"] ["a", "b"] ["a", "b"] 0 0 0 0 none
     (by decide) (by decide) (List.Perm.refl _) (List.Perm.refl _) (by decide)
     (by decide) (by decide)⟩

end MastodonBot
